import Mathlib

/-!
Verification development for the `snn-workshop-amld-2020` repository.

The repository consists of two Jupyter notebooks that orchestrate an ECG
anomaly-detection demo on top of the external `rockpool` SNN library and the
DYNAP-SE hardware control stack:

* the hardware-demo notebook (`src/unnamed/part_000`, cells referred to below
  as `hw` cells), and
* `src/Notebooks/ECG_demo/ECG Demo Notebook.ipynb` (cells referred to below as
  `demo` cells, numbered `cell-0`, `cell-1`, ... in document order).

The notebooks' own code is straight-line Python: constants, `np.load` calls,
in-place block scaling of weight matrices, library-object construction, and
plotting.  We embed

1. the numpy arrays occurring in the weight-scaling arithmetic as matrices
   given by a shape and a total entry function (`Mat`), with the slice
   assignments `A[r1:r2, c1:c2] *= k` modelled with numpy's clipping
   semantics (`blockMulAssign`), and
2. each notebook as the ordered list of its executable (non-comment)
   top-level statements, each statement recording the names it binds, the
   free global names it reads, the attribute/subscript assignment target if
   any, and the calls it performs (`Stmt`).  IPython magics and shell lines
   are not Python statements and are not part of the statement lists;
   commented-out lines are likewise not executable and do not appear.

Definitions are transcribed from the notebook sources.  The two places where
the behaviour of an external library function is needed (`FFUpDown`'s output
channel count and `rectangular_neuron_arrangement`) are modelled from the
spec's/notebooks' prose and are marked `Modelled from the spec:` in their doc
comments.
-/

set_option maxHeartbeats 1000000
set_option maxRecDepth 4000

namespace ECGDemo

/-! ### Matrices and vectors as shape plus entry function -/

/-- A numpy 2-d array: a shape together with a total entry function.
Entries outside the shape are irrelevant junk carried by the model. -/
structure Mat where
  rows : ℕ
  cols : ℕ
  entry : ℕ → ℕ → ℚ

/-- A numpy 1-d array. -/
structure Vec where
  len : ℕ
  entry : ℕ → ℚ

/-- `A * c` for a scalar `c` (elementwise, as in `weights_res_in.copy() * baseweight_inp`). -/
def matMulScalar (A : Mat) (c : ℚ) : Mat :=
  ⟨A.rows, A.cols, fun i j => A.entry i j * c⟩

/-- In-place block scaling `A[r1:r2, c1:c2] *= k`.  As in numpy, the slice
bounds are clipped to the array's shape. -/
def blockMulAssign (A : Mat) (r1 r2 c1 c2 : ℕ) (k : ℚ) : Mat :=
  ⟨A.rows, A.cols, fun i j =>
    if r1 ≤ i ∧ i < min r2 A.rows ∧ c1 ≤ j ∧ j < min c2 A.cols then A.entry i j * k
    else A.entry i j⟩

/-- `np.zeros((r, c))`. -/
def np_zeros (r c : ℕ) : Mat := ⟨r, c, fun _ _ => 0⟩

/-- `np.hstack((A, B))` for equal-height blocks. -/
def np_hstack (A B : Mat) : Mat :=
  ⟨A.rows, A.cols + B.cols, fun i j => if j < A.cols then A.entry i j else B.entry i (j - A.cols)⟩

/-- Column slice `A[:, :n]` (numpy clips `n` to the number of columns). -/
def colSlice (A : Mat) (n : ℕ) : Mat := ⟨A.rows, min n A.cols, A.entry⟩

/-- Vector slice `b[:n]`. -/
def vecSlice (v : Vec) (n : ℕ) : Vec := ⟨min n v.len, v.entry⟩

/-! ### Constants of the notebooks -/

def DT_ECG : ℚ := 0.002778
def NUM_ECG_LEADS : ℕ := 2
/-- `NUM_ANOM_CLASSES` in the hardware-demo notebook (`part_000`). -/
def NUM_ANOM_CLASSES : ℕ := 4

def start_rec : ℕ := 128
def start_inh : ℕ := 128 + 512

def baseweight_inp : ℚ := 5e-4
def baseweight_exp_rec : ℚ := 8e-5
def baseweight_rec : ℚ := 8e-5
def baseweight_rec_inh : ℚ := 8e-5
def baseweight_inh : ℚ := 1e-4

/-- Demo notebook (`cell-11`/`cell-13`) sizes. -/
def num_ch_in : ℕ := 2 * NUM_ECG_LEADS
def size_expand : ℕ := 128
def size_rec : ℕ := 512
def size_inh : ℕ := 128
def size_reservoir : ℕ := size_rec + size_inh

/-! ### The weight-scaling arithmetic

Both notebooks perform the same scaling (in the demo notebook `start_rec`
and `start_inh` are computed from `size_expand = 128` and `size_rec = 512`,
giving the same values `128` and `640`, and `baseweight_expand = 5e-4` plays
the role of `baseweight_inp`). -/

/-- `weights_res_in_scaled = weights_res_in.copy() * baseweight_inp`. -/
def weights_res_in_scaled (w : Mat) : Mat := matMulScalar w baseweight_inp

/-- The four in-place block scalings applied to `weights_rec.copy()`:

    weights_rec_scaled[:start_rec, start_rec:start_inh] *= baseweight_exp_rec
    weights_rec_scaled[start_rec:start_inh, start_rec:start_inh] *= baseweight_rec
    weights_rec_scaled[start_rec:start_inh, start_inh:] *= baseweight_rec_inh
    weights_rec_scaled[start_inh:, start_rec:start_inh] *= baseweight_inh
-/
def weights_rec_scaled (w : Mat) : Mat :=
  blockMulAssign
    (blockMulAssign
      (blockMulAssign
        (blockMulAssign w 0 start_rec start_rec start_inh baseweight_exp_rec)
        start_rec start_inh start_rec start_inh baseweight_rec)
      start_rec start_inh start_inh w.cols baseweight_rec_inh)
    start_inh w.rows start_rec start_inh baseweight_inh

/-- The claim's description of the input-weight scaling: a single base weight
`5e-4` applied elementwise. -/
def inpScalingClaim (w : Mat) (i j : ℕ) : Prop :=
  (weights_res_in_scaled w).entry i j = w.entry i j * 5e-4

/-- The claim's description of the recurrent-weight scaling: exactly four
blocks are scaled by their base weights and every entry outside them is left
equal to the loaded value. -/
def recScalingClaim (w : Mat) (i j : ℕ) : Prop :=
  (weights_rec_scaled w).entry i j =
    if i < 128 ∧ 128 ≤ j ∧ j < 640 then w.entry i j * 8e-5
    else if 128 ≤ i ∧ i < 640 ∧ 128 ≤ j ∧ j < 640 then w.entry i j * 8e-5
    else if 128 ≤ i ∧ i < 640 ∧ 640 ≤ j then w.entry i j * 8e-5
    else if 640 ≤ i ∧ 128 ≤ j ∧ j < 640 then w.entry i j * 1e-4
    else w.entry i j

/-- C2: the weight-scaling arithmetic scales the input matrix elementwise by
the single base weight `5e-4`, and scales exactly the four stated blocks of
the recurrent matrix (rows `[0,128) × cols [128,640)`, rows `[128,640) ×
cols [128,640)`, rows `[128,640) × cols [640,end)` each by `8e-5`, and rows
`[640,end) × cols [128,640)` by `1e-4`), leaving every other in-range entry
equal to the loaded value. -/
theorem weight_scaling_matches_claimed_blocks
    (w win : Mat) (i j i2 j2 : ℕ) (hi : i < w.rows) (hj : j < w.cols) :
    inpScalingClaim win i2 j2 ∧ recScalingClaim w i j := by
  constructor
  · rfl
  · simp only [recScalingClaim, weights_rec_scaled, blockMulAssign, start_rec, start_inh,
      baseweight_exp_rec, baseweight_rec, baseweight_rec_inh, baseweight_inh]
    split_ifs <;> first | rfl | (exfalso; omega)

/-- Concrete matrix used to instantiate the weight-scaling theorem. -/
def scalingWitnessMat : Mat := ⟨768, 768, fun i j => (i : ℚ) * 1000 + (j : ℚ)⟩

/-- Witness for C2: the scaling theorem applied at row 700, column 300 of a
concrete 768 × 768 matrix. -/
theorem weight_scaling_matches_claimed_blocks_witness :
    (700 < scalingWitnessMat.rows ∧ 300 < scalingWitnessMat.cols) ∧
      (inpScalingClaim scalingWitnessMat 0 0 ∧ recScalingClaim scalingWitnessMat 700 300) :=
  ⟨⟨by decide, by decide⟩,
    weight_scaling_matches_claimed_blocks scalingWitnessMat scalingWitnessMat 700 300 0 0
      (by decide) (by decide)⟩

/-! ### C1: which matrices each reservoir layer receives

Dataflow of the reservoir constructions, read off the notebook sources.
In the hardware-demo notebook (`part_000`):

    reservoir    = RecIAFSpkInNest(weights_in=weights_res_in_scaled, weights_rec=weights_rec_scaled, ...)
    reservoir_hw = RecDynapSE(weights_in=weights_res_in, weights_rec=weights_rec, ...)

In the demo notebook (`cell-16` and `cell-35`):

    reservoir = RecIAFSpkInNest(weights_in=weights_res_in, weights_rec=weights_rec, ...)
    hw_layer  = RecDynapSE(weights_in=weights_res_in, weights_rec=weights_rec, ...)

even though `cell-13` computes `weights_res_in_scaled` and
`weights_rec_scaled` under the comment "Scale weights for software
simulation". -/

/-- `weights_res_in` of the demo notebook: the loaded expansion weights
hstacked with zeros to the full reservoir width (`cell-13`). -/
def demo_weights_res_in (weights_expand : Mat) : Mat :=
  np_hstack weights_expand (np_zeros num_ch_in size_reservoir)

/-- `weights_rec` argument passed to `RecIAFSpkInNest` in the demo notebook
(`cell-16`): the loaded matrix itself, unscaled. -/
def demo_reservoir_weights_rec (weights_rec : Mat) : Mat := weights_rec

/-- `weights_in` argument passed to `RecIAFSpkInNest` in the demo notebook
(`cell-16`): `weights_res_in`, unscaled. -/
def demo_reservoir_weights_in (weights_expand : Mat) : Mat :=
  demo_weights_res_in weights_expand

/-- `weights_rec` argument passed to `RecIAFSpkInNest` in the hardware-demo
notebook (`part_000`): the scaled matrix. -/
def hwdemo_reservoir_weights_rec (weights_rec : Mat) : Mat := weights_rec_scaled weights_rec

/-- `weights_in` argument passed to `RecIAFSpkInNest` in the hardware-demo
notebook (`part_000`): the scaled matrix. -/
def hwdemo_reservoir_weights_in (weights_res_in : Mat) : Mat :=
  weights_res_in_scaled weights_res_in

/-- `weights_rec` argument passed to `RecDynapSE` in both notebooks: the
loaded integer matrix, unscaled. -/
def reservoir_hw_weights_rec (weights_rec : Mat) : Mat := weights_rec

/-- `weights_in` argument passed to `RecDynapSE` in both notebooks. -/
def reservoir_hw_weights_in (weights_res_in : Mat) : Mat := weights_res_in

/-- A concrete all-ones 768 × 768 loaded recurrent matrix. -/
def onesRec : Mat := ⟨768, 768, fun _ _ => 1⟩

/-- C1: in the hardware-demo notebook the software reservoir receives the
scaled matrices and the hardware layer the unscaled ones, but in the demo
notebook `RecIAFSpkInNest` receives the unscaled loaded matrix: at the
all-ones loaded matrix its `weights_rec` argument has entry `1` at
`(0, 128)`, whereas the scaled matrix has entry `8e-5` there, so the demo
notebook's software reservoir is not built from the scaled weights. -/
theorem demo_reservoir_receives_unscaled_weights :
    hwdemo_reservoir_weights_rec onesRec = weights_rec_scaled onesRec
    ∧ reservoir_hw_weights_rec onesRec = onesRec
    ∧ demo_reservoir_weights_rec onesRec = onesRec
    ∧ (demo_reservoir_weights_rec onesRec).entry 0 128 = 1
    ∧ (weights_rec_scaled onesRec).entry 0 128 = 8e-5
    ∧ (demo_reservoir_weights_rec onesRec).entry 0 128 ≠ (weights_rec_scaled onesRec).entry 0 128 := by
  have hscaled : (weights_rec_scaled onesRec).entry 0 128 = 8e-5 := by
    norm_num [weights_rec_scaled, blockMulAssign, onesRec, start_rec, start_inh,
      baseweight_exp_rec, baseweight_rec, baseweight_rec_inh, baseweight_inh]
  refine ⟨rfl, rfl, rfl, rfl, hscaled, ?_⟩
  rw [hscaled]
  norm_num [demo_reservoir_weights_rec, onesRec]

/-! ### C8: the spike encoder -/

/-- The constructor arguments of a `rockpool.layers.FFUpDown` layer. -/
structure FFUpDownLayer where
  weights : ℕ
  dt : ℚ
  thr_up : ℚ
  thr_down : ℚ
  multiplex_spikes : Bool

/-- The spike encoder, constructed identically in both notebooks:
`FFUpDown(weights=NUM_ECG_LEADS, dt=DT_ECG, thr_up=0.1, thr_down=0.1,
multiplex_spikes=True, name="spike_encoder")`. -/
def spike_enc : FFUpDownLayer :=
  { weights := NUM_ECG_LEADS
    dt := DT_ECG
    thr_up := 0.1
    thr_down := 0.1
    multiplex_spikes := true }

/-- Modelled from the spec: the `FFUpDown` implementation lives in the
external rockpool library, whose source is not part of this repository.  Per
the spec and the notebooks' prose ("For every ECG lead there are two output
channels, emitting spikes when the input signal increases ('up'-channel) or
decreases ('down'-channel)"), a layer constructed with an integer
`weights = N` encodes `N` analog inputs into `2 * N` spike channels. -/
def FFUpDown_output_channels (l : FFUpDownLayer) : ℕ := 2 * l.weights

/-- C8: the spike encoder uses symmetric up/down thresholds of `0.1` and
produces one up and one down channel per ECG lead, i.e. exactly
`2 * NUM_ECG_LEADS = 4` spike-train channels. -/
theorem spike_encoder_thresholds_and_channels :
    spike_enc.thr_up = 0.1
    ∧ spike_enc.thr_down = 0.1
    ∧ spike_enc.thr_up = spike_enc.thr_down
    ∧ FFUpDown_output_channels spike_enc = 2 * NUM_ECG_LEADS
    ∧ FFUpDown_output_channels spike_enc = 4 :=
  ⟨rfl, rfl, rfl, rfl, rfl⟩

/-! ### C9: the hardware readout layer of the hardware-demo notebook -/

/-- The state of a `rockpool.layers.FFExpSyn` layer that the notebook code
touches: its weight matrix and bias vector (plus the fixed constructor
parameters).  The scalar `bias=0` argument is broadcast by the library to a
zero vector of the output size. -/
structure FFExpSynLayer where
  weights : Mat
  bias : Vec
  dt : ℚ
  tau_syn : ℚ

/-- `readout_hw = FFExpSyn(weights=np.zeros((reservoir_hw.size, NUM_ANOM_CLASSES)),
bias=0, dt=DT_ECG, tau_syn=0.175, name="readout")` from `part_000`, with the
hardware reservoir size as a parameter. -/
def readout_hw_init (reservoir_hw_size : ℕ) : FFExpSynLayer :=
  { weights := np_zeros reservoir_hw_size NUM_ANOM_CLASSES
    bias := ⟨NUM_ANOM_CLASSES, fun _ => 0⟩
    dt := DT_ECG
    tau_syn := 0.175 }

/-- Loading the pretrained parameters in `part_000`:

    readout_hw.weights = np.load("network/readout_weights_hw.npy")[:, :4]
    readout_hw.bias = np.load("network/readout_bias_hw.npy")[:4]
-/
def readout_hw_after_load (l : FFExpSynLayer) (storedW : Mat) (storedB : Vec) : FFExpSynLayer :=
  { l with weights := colSlice storedW 4, bias := vecSlice storedB 4 }

/-- C9: the hardware readout always has exactly 4 output channels — it is
constructed as a zero matrix of shape (reservoir size, 4), and loading the
pretrained parameters assigns exactly the first 4 columns of the stored
weight array and the first 4 entries of the stored bias array, for any
stored arrays with at least 4 columns/entries. -/
theorem readout_hw_always_four_channels
    (n i j : ℕ) (storedW : Mat) (storedB : Vec)
    (hW : 4 ≤ storedW.cols) (hB : 4 ≤ storedB.len) :
    (readout_hw_init n).weights.rows = n
    ∧ (readout_hw_init n).weights.cols = 4
    ∧ (readout_hw_init n).weights.entry i j = 0
    ∧ (readout_hw_after_load (readout_hw_init n) storedW storedB).weights.cols = 4
    ∧ (readout_hw_after_load (readout_hw_init n) storedW storedB).weights.rows = storedW.rows
    ∧ (readout_hw_after_load (readout_hw_init n) storedW storedB).weights.entry i j
        = storedW.entry i j
    ∧ (readout_hw_after_load (readout_hw_init n) storedW storedB).bias.len = 4
    ∧ (readout_hw_after_load (readout_hw_init n) storedW storedB).bias.entry i
        = storedB.entry i := by
  refine ⟨rfl, rfl, rfl, ?_, rfl, rfl, ?_, rfl⟩
  · simpa [readout_hw_after_load, colSlice] using Nat.min_eq_left hW
  · simpa [readout_hw_after_load, vecSlice] using Nat.min_eq_left hB

/-- Concrete stored weight array with 6 columns. -/
def storedWWitness : Mat := ⟨768, 6, fun i j => (i : ℚ) * 10 + (j : ℚ)⟩

/-- Concrete stored bias array with 6 entries. -/
def storedBWitness : Vec := ⟨6, fun i => (i : ℚ)⟩

/-- Witness for C9: the readout theorem applied at a concrete reservoir size
and concrete stored arrays with more than 4 columns/entries. -/
theorem readout_hw_always_four_channels_witness :
    (4 ≤ storedWWitness.cols ∧ 4 ≤ storedBWitness.len) ∧
      ((readout_hw_init 768).weights.rows = 768
       ∧ (readout_hw_init 768).weights.cols = 4
       ∧ (readout_hw_init 768).weights.entry 1 2 = 0
       ∧ (readout_hw_after_load (readout_hw_init 768) storedWWitness storedBWitness).weights.cols = 4
       ∧ (readout_hw_after_load (readout_hw_init 768) storedWWitness storedBWitness).weights.rows
           = storedWWitness.rows
       ∧ (readout_hw_after_load (readout_hw_init 768) storedWWitness storedBWitness).weights.entry 1 2
           = storedWWitness.entry 1 2
       ∧ (readout_hw_after_load (readout_hw_init 768) storedWWitness storedBWitness).bias.len = 4
       ∧ (readout_hw_after_load (readout_hw_init 768) storedWWitness storedBWitness).bias.entry 1
           = storedBWitness.entry 1) :=
  ⟨⟨by decide, by decide⟩,
    readout_hw_always_four_channels 768 1 2 storedWWitness storedBWitness (by decide) (by decide)⟩

/-! ### C10: the hardware neuron arrangement -/

/-- Modelled from the spec: `rectangular_neuron_arrangement` comes from the
external rockpool library, whose source is not part of this repository.  Per
the notebooks' prose, "the neurons will be assigned so they form rectangles"
on the chip, whose neuron grid rows are 16 neurons wide: starting from
`first_neuron` as the upper-left corner, the arrangement takes `width`
consecutive IDs per grid row, stepping by 16 between rows, until
`num_neurons` IDs are produced. -/
def rectangular_neuron_arrangement (first_neuron num_neurons width : ℕ) : List ℕ :=
  (List.range num_neurons).map (fun k => first_neuron + 16 * (k / width) + k % width)

/-- The four rectangles of the hardware-demo notebook: input layer, the two
reservoir rectangles and the inhibitory layer, as
`(first_neuron, num_neurons, width)` triples. -/
def rectangular_arrangement : List (ℕ × ℕ × ℕ) :=
  [(4, 128, 8), (256, 256, 16), (768, 512 - 256, 16), (516, 128, 8)]

/-- `neuron_ids`: the concatenation of the four rectangular arrangements. -/
def neuron_ids : List ℕ :=
  rectangular_arrangement.foldl
    (fun acc p => acc ++ rectangular_neuron_arrangement p.1 p.2.1 p.2.2) []

/-- The virtual (input) neuron IDs. -/
def virtual_neuron_ids : List ℕ := [1, 2, 3, 12]

/-- C10: none of the virtual neuron IDs 1, 2, 3, 12 occurs among the 768
hardware neuron IDs produced by the four rectangular arrangements, so the
two ID sets are disjoint. -/
theorem virtual_ids_disjoint_from_hardware_ids :
    (virtual_neuron_ids.all fun v => !(neuron_ids.contains v)) = true
    ∧ neuron_ids.length = 768 := by
  constructor
  · decide
  · decide

/-! ### A statement-level embedding of the two notebooks

Each executable top-level Python statement of the notebooks is recorded as a
`Stmt`: the global names it binds on success (`defs` — assignment targets,
loop variables and imported names), the free global names it reads (`uses` —
module names such as `np` or `plt` included; Python builtins such as `list`,
`dict`, `abs`, `print`, `enumerate`, `zip` are always available and are not
listed), the target of an attribute assignment `obj.attr = ...` (`attr`),
the base object of a subscript/slice assignment `obj[...] = ...` or
`obj[...] *= ...` (`subscript`), the receiver/function pairs of the calls
the statement performs (`calls`; imported constructors are recorded under
their defining package, e.g. `("rockpool", "FFUpDown")`, and builtin
functions under `"builtins"`), and whether its right-hand side is the result
of an `np.load` of a stored file, possibly sliced (`rhsIsLoad`).

A `for` loop is recorded as its header statement (binding the loop
variables) followed by its body statements. -/

structure Stmt where
  defs : List String := []
  uses : List String := []
  attr : Option (String × String) := none
  subscript : Option String := none
  calls : List (String × String) := []
  rhsIsLoad : Bool := false
  deriving DecidableEq

/-- The hardware-control statement
`hot_neurons = controller.silence_hot_neurons(neuron_ids, silence_hot_neurons_dur)`
of the hardware-demo notebook. -/
def silenceHotNeuronsStmt : Stmt :=
  { defs := ["hot_neurons"]
    uses := ["controller", "neuron_ids", "silence_hot_neurons_dur"]
    calls := [("controller", "silence_hot_neurons")] }

/-- The cells of the hardware-demo notebook (`src/unnamed/part_000`), in
order; fully commented-out cells contribute empty statement lists. -/
def hwCells : List (List Stmt) :=
  [ -- cell: ipympl install check
    [ { defs := ["importlib"] },
      { uses := ["importlib"], calls := [("importlib.util", "find_spec")] } ],
    -- cell: warnings and example-beat plot
    [ { defs := ["warnings"] },
      { uses := ["warnings"], calls := [("warnings", "filterwarnings")] },
      { defs := ["plot_examples", "labels"] },
      { uses := ["plot_examples"], calls := [("scripts", "plot_examples")] } ],
    -- cell: data loader
    [ { defs := ["ECGDataLoader"] },
      { defs := ["data_loader"], uses := ["ECGDataLoader"],
        calls := [("scripts", "ECGDataLoader")] } ],
    -- cell: constants and spike encoder
    [ { defs := ["FFUpDown"] },
      { defs := ["DT_ECG"] },
      { defs := ["NUM_ECG_LEADS"] },
      { defs := ["NUM_ANOM_CLASSES"] },
      { defs := ["spike_enc"], uses := ["FFUpDown", "NUM_ECG_LEADS", "DT_ECG"],
        calls := [("rockpool", "FFUpDown")] } ],
    -- cell: weight loading, scaling and software reservoir
    [ { defs := ["np"] },
      { defs := ["RecIAFSpkInNest"] },
      { defs := ["weights_res_in"], uses := ["np"], calls := [("np", "load")], rhsIsLoad := true },
      { defs := ["weights_rec"], uses := ["np"], calls := [("np", "load")], rhsIsLoad := true },
      { defs := ["start_rec"] },
      { defs := ["start_inh"] },
      { defs := ["baseweight_inp"] },
      { defs := ["baseweight_exp_rec"] },
      { defs := ["baseweight_rec"] },
      { defs := ["baseweight_rec_inh"] },
      { defs := ["baseweight_inh"] },
      { defs := ["weights_res_in_scaled"], uses := ["weights_res_in", "baseweight_inp"],
        calls := [("weights_res_in", "copy")] },
      { defs := ["weights_rec_scaled"], uses := ["weights_rec"],
        calls := [("weights_rec", "copy")] },
      { subscript := some "weights_rec_scaled",
        uses := ["weights_rec_scaled", "start_rec", "start_inh", "baseweight_exp_rec"] },
      { subscript := some "weights_rec_scaled",
        uses := ["weights_rec_scaled", "start_rec", "start_inh", "baseweight_rec"] },
      { subscript := some "weights_rec_scaled",
        uses := ["weights_rec_scaled", "start_rec", "start_inh", "baseweight_rec_inh"] },
      { subscript := some "weights_rec_scaled",
        uses := ["weights_rec_scaled", "start_rec", "start_inh", "baseweight_inh"] },
      { defs := ["kwargs_reservoir"], uses := ["np"], calls := [("np", "load")], rhsIsLoad := true },
      { defs := ["reservoir"],
        uses := ["RecIAFSpkInNest", "weights_res_in_scaled", "weights_rec_scaled",
                 "kwargs_reservoir"],
        calls := [("rockpool", "RecIAFSpkInNest")] } ],
    -- cell: software readout
    [ { defs := ["FFExpSyn"] },
      { defs := ["readout"],
        uses := ["FFExpSyn", "np", "reservoir", "NUM_ANOM_CLASSES", "DT_ECG"],
        calls := [("rockpool", "FFExpSyn"), ("np", "zeros")] } ],
    -- cell: software network
    [ { defs := ["Network"] },
      { defs := ["sw_net"],
        uses := ["Network", "spike_enc", "reservoir", "readout", "DT_ECG"],
        calls := [("rockpool", "Network")] } ],
    -- three fully commented-out training/testing cells
    [], [], [],
    -- cell: load pretrained software readout parameters
    [ { attr := some ("readout", "weights"), uses := ["readout", "np"],
        calls := [("np", "load")], rhsIsLoad := true },
      { attr := some ("readout", "bias"), uses := ["readout", "np"],
        calls := [("np", "load")], rhsIsLoad := true } ],
    -- cell: software inference
    [ { defs := ["num_beats"] },
      { defs := ["ecg_data"], uses := ["data_loader", "num_beats"],
        calls := [("data_loader", "get_single_batch")] },
      { defs := ["net_data"], uses := ["sw_net", "ecg_data"], calls := [("sw_net", "evolve")] },
      { defs := ["output"], uses := ["net_data"] },
      { uses := ["sw_net"], calls := [("sw_net", "reset_all")] } ],
    -- cell: plot software inference output
    [ { defs := ["plt"] },
      { defs := ["TSContinuous"] },
      { defs := ["target"], uses := ["ecg_data"], calls := [("ecg_data.target", "copy")] },
      { defs := ["any_target"], uses := ["TSContinuous", "target", "np"],
        calls := [("rockpool", "TSContinuous"), ("np", "any")] },
      { defs := ["fig", "axes"], uses := ["plt"], calls := [("plt", "subplots")] },
      { uses := ["plt"], calls := [("plt", "subplots_adjust")] },
      { defs := ["i_anom", "ax", "lbl"], uses := ["axes", "labels"],
        calls := [("axes", "flatten")] },
      { uses := ["output", "any_target", "target", "ax", "i_anom", "lbl"],
        calls := [("output", "clip"), ("output", "plot"), ("any_target", "plot"),
                  ("target", "clip"), ("target", "plot"), ("ax", "set_title")] } ],
    -- cell: neuron arrangement
    [ { defs := ["rectangular_neuron_arrangement"] },
      { defs := ["rectangular_arrangement"] },
      { defs := ["neuron_ids"] },
      { defs := ["rectangle_params"], uses := ["rectangular_arrangement"] },
      { defs := ["neuron_ids"],
        uses := ["neuron_ids", "rectangular_neuron_arrangement", "rectangle_params"],
        calls := [("rockpool", "rectangular_neuron_arrangement")] },
      { defs := ["virtual_neuron_ids"] } ],
    -- cell: hardware controller
    [ { defs := ["DynapseControlExtd"] },
      { defs := ["controller"], uses := ["DynapseControlExtd"],
        calls := [("rockpool", "DynapseControlExtd")] },
      { defs := ["bias_path"] },
      { uses := ["controller", "bias_path"], calls := [("controller", "load_biases")] },
      { defs := ["silence_hot_neurons_dur"] },
      silenceHotNeuronsStmt ],
    -- cell: hardware reservoir layer
    [ { defs := ["RecDynapSE"] },
      { defs := ["dt_hardware"], uses := ["reservoir"] },
      { defs := ["reservoir_hw"],
        uses := ["RecDynapSE", "weights_res_in", "weights_rec", "neuron_ids",
                 "virtual_neuron_ids", "dt_hardware", "controller"],
        calls := [("rockpool", "RecDynapSE")] } ],
    -- cell: hardware readout
    [ { defs := ["readout_hw"],
        uses := ["FFExpSyn", "np", "reservoir_hw", "NUM_ANOM_CLASSES", "DT_ECG"],
        calls := [("rockpool", "FFExpSyn"), ("np", "zeros")] } ],
    -- cell: hardware network
    [ { uses := ["sw_net"], calls := [("sw_net", "reset_all")] },
      { defs := ["hw_net"],
        uses := ["Network", "spike_enc", "reservoir_hw", "readout_hw", "DT_ECG"],
        calls := [("rockpool", "Network")] } ],
    -- fully commented-out hardware training cell
    [],
    -- cell: load pretrained hardware readout parameters
    [ { attr := some ("readout_hw", "weights"), uses := ["readout_hw", "np"],
        calls := [("np", "load")], rhsIsLoad := true },
      { attr := some ("readout_hw", "bias"), uses := ["readout_hw", "np"],
        calls := [("np", "load")], rhsIsLoad := true } ],
    -- cell: hardware inference
    [ { defs := ["num_beats"] },
      { defs := ["ecg_data_hw"], uses := ["data_loader", "num_beats"],
        calls := [("data_loader", "get_single_batch")] },
      { uses := ["ecg_data_hw"], calls := [("ecg_data_hw.input", "plot")] },
      { defs := ["net_data_hw"], uses := ["hw_net", "ecg_data_hw"],
        calls := [("hw_net", "evolve")] },
      { uses := ["hw_net"], calls := [("hw_net", "reset_all")] },
      { defs := ["output_hw"], uses := ["net_data_hw"] },
      { calls := [("builtins", "print")] } ],
    -- cell: plot the processing stages
    [ { defs := ["fig", "axes"], uses := ["plt"], calls := [("plt", "subplots")] },
      { uses := ["plt"], calls := [("plt", "subplots_adjust")] },
      { defs := ["t_start"] },
      { defs := ["t_stop"] },
      { subscript := some "net_data_hw", uses := ["net_data_hw"],
        calls := [("builtins", "abs")] },
      { defs := ["layername", "ax"], uses := ["axes"] },
      { uses := ["net_data_hw", "layername", "ax"],
        calls := [("net_data_hw", "clip"), ("net_data_hw", "plot"), ("ax", "set_title")] },
      { uses := ["ax"], calls := [("ax", "set_xlabel")] },
      { defs := ["target_hw"], uses := ["ecg_data_hw"],
        calls := [("ecg_data_hw.target", "copy")] },
      { defs := ["any_target_hw"], uses := ["TSContinuous", "target_hw", "np"],
        calls := [("rockpool", "TSContinuous"), ("np", "any")] },
      { uses := ["any_target_hw", "t_start", "t_stop", "ax"],
        calls := [("any_target_hw", "clip"), ("any_target_hw", "plot")] } ],
    -- cell: plot hardware readout output per anomaly
    [ { defs := ["fig", "axes"], uses := ["plt"], calls := [("plt", "subplots")] },
      { uses := ["plt"], calls := [("plt", "subplots_adjust")] },
      { defs := ["i_anom", "ax", "lbl"], uses := ["axes", "labels"],
        calls := [("axes", "flatten")] },
      { uses := ["output_hw", "any_target_hw", "target_hw", "ax", "i_anom", "lbl"],
        calls := [("builtins", "abs"), ("output_hw", "clip"), ("output_hw", "plot"),
                  ("any_target_hw", "plot"), ("target_hw", "clip"), ("target_hw", "plot"),
                  ("ax", "set_title")] } ],
    -- cell: display output_hw
    [ { uses := ["output_hw"] } ] ]

/-- The cells of `ECG Demo Notebook.ipynb`, in order (`cell-2`, `cell-4`,
`cell-7`, `cell-9`, `cell-11`, `cell-13`, `cell-14`, `cell-15`, `cell-16`,
`cell-18`, `cell-20`, `cell-23`, `cell-24`, `cell-25`, `cell-26`,
`cell-28`, `cell-29`, `cell-31`, `cell-33`, `cell-34`, `cell-35`,
`cell-36`, `cell-37`, `cell-39`, `cell-40`, `cell-42`, `cell-43`);
fully commented-out cells contribute empty statement lists. -/
def demoCells : List (List Stmt) :=
  [ -- cell-2: imports and constants
    [ { defs := ["np"] },
      { defs := ["plt"] },
      { defs := ["DT_ECG"] },
      { defs := ["NUM_ECG_LEADS"] },
      { defs := ["NUM_ANOM_CLASSES"] },
      { defs := ["MAX_FANIN"] } ],
    -- cell-4: example-beat plot
    [ { defs := ["plot_examples", "labels"] },
      { uses := ["plot_examples"], calls := [("scripts", "plot_examples")] } ],
    -- cell-7: data loader
    [ { defs := ["ECGDataLoader"] },
      { defs := ["data_loader"], uses := ["ECGDataLoader"],
        calls := [("scripts", "ECGDataLoader")] } ],
    -- cell-9: spike encoder
    [ { defs := ["FFUpDown"] },
      { defs := ["spike_enc"], uses := ["FFUpDown", "NUM_ECG_LEADS", "DT_ECG"],
        calls := [("rockpool", "FFUpDown")] } ],
    -- cell-11: input expansion layer
    [ { defs := ["num_ch_in"], uses := ["NUM_ECG_LEADS"] },
      { defs := ["size_expand"] },
      { defs := ["baseweight_expand"] },
      { defs := ["weights_expand"], uses := ["np"], calls := [("np", "load")],
        rhsIsLoad := true },
      { uses := ["plt", "weights_expand"], calls := [("plt", "imshow")] },
      { uses := ["plt"], calls := [("plt", "title")] } ],
    -- cell-13: reservoir sizes, weight loading and scaling
    [ { defs := ["partitioned_2d_reservoir"] },
      { defs := ["size_rec"] },
      { defs := ["size_inh"] },
      { defs := ["size_reservoir"], uses := ["size_rec", "size_inh"] },
      { defs := ["num_exp_rec"] },
      { defs := ["num_inh"] },
      { defs := ["num_rec_inh"] },
      { defs := ["num_rec_short"] },
      { defs := ["num_rec_long"] },
      { defs := ["baseweight_exp_rec"] },
      { defs := ["baseweight_rec"] },
      { defs := ["baseweight_rec_inh"] },
      { defs := ["baseweight_inh"] },
      { defs := ["weights_res_in"],
        uses := ["np", "weights_expand", "num_ch_in", "size_reservoir"],
        calls := [("np", "hstack"), ("np", "zeros")] },
      { defs := ["weights_rec"], uses := ["np"], calls := [("np", "load")], rhsIsLoad := true },
      { defs := ["weights_res_in_scaled"], uses := ["weights_res_in", "baseweight_expand"],
        calls := [("weights_res_in", "copy")] },
      { defs := ["start_rec"], uses := ["size_expand"] },
      { defs := ["start_inh"], uses := ["size_expand", "size_rec"] },
      { defs := ["weights_rec_scaled"], uses := ["weights_rec"],
        calls := [("weights_rec", "copy")] },
      { subscript := some "weights_rec_scaled",
        uses := ["weights_rec_scaled", "start_rec", "start_inh", "baseweight_exp_rec"] },
      { subscript := some "weights_rec_scaled",
        uses := ["weights_rec_scaled", "start_rec", "start_inh", "baseweight_rec"] },
      { subscript := some "weights_rec_scaled",
        uses := ["weights_rec_scaled", "start_rec", "start_inh", "baseweight_rec_inh"] },
      { subscript := some "weights_rec_scaled",
        uses := ["weights_rec_scaled", "start_rec", "start_inh", "baseweight_inh"] } ],
    -- cell-14: plot scaled input weights
    [ { uses := ["plt", "weights_res_in_scaled"], calls := [("plt", "imshow")] },
      { uses := ["plt"], calls := [("plt", "title")] },
      { uses := ["plt"], calls := [("plt", "xlabel")] },
      { uses := ["plt"], calls := [("plt", "ylabel")] } ],
    -- cell-15: plot scaled recurrent weights
    [ { uses := ["plt", "weights_rec_scaled"], calls := [("plt", "imshow")] },
      { uses := ["plt"], calls := [("plt", "title")] },
      { uses := ["plt"], calls := [("plt", "xlabel")] },
      { uses := ["plt"], calls := [("plt", "ylabel")] } ],
    -- cell-16: software reservoir (built from the UNSCALED matrices)
    [ { defs := ["RecIAFSpkInNest"] },
      { defs := ["kwargs_reservoir"], uses := ["np"], calls := [("np", "load")],
        rhsIsLoad := true },
      { defs := ["reservoir"],
        uses := ["RecIAFSpkInNest", "weights_res_in", "weights_rec", "kwargs_reservoir"],
        calls := [("rockpool", "RecIAFSpkInNest")] } ],
    -- cell-18: software readout (references the undefined name size_full)
    [ { defs := ["FFExpSyn"] },
      { defs := ["readout"],
        uses := ["FFExpSyn", "np", "size_full", "NUM_ANOM_CLASSES", "DT_ECG"],
        calls := [("rockpool", "FFExpSyn"), ("np", "zeros")] } ],
    -- cell-20: software network
    [ { defs := ["Network"] },
      { defs := ["sw_net"],
        uses := ["Network", "spike_enc", "reservoir", "readout", "DT_ECG"],
        calls := [("rockpool", "Network")] } ],
    -- cell-23, cell-24, cell-25: fully commented-out
    [], [], [],
    -- cell-26: load pretrained software readout parameters
    [ { attr := some ("readout", "weights"), uses := ["readout", "np"],
        calls := [("np", "load")], rhsIsLoad := true },
      { attr := some ("readout", "bias"), uses := ["readout", "np"],
        calls := [("np", "load")], rhsIsLoad := true } ],
    -- cell-28: software inference
    [ { defs := ["num_beats"] },
      { defs := ["ecg_data"], uses := ["data_loader", "num_beats"],
        calls := [("data_loader", "get_single_batch")] },
      { defs := ["net_data"], uses := ["sw_net", "ecg_data"], calls := [("sw_net", "evolve")] },
      { defs := ["output"], uses := ["net_data"] },
      { uses := ["sw_net"], calls := [("sw_net", "reset_all")] } ],
    -- cell-29: plot software inference output
    [ { defs := ["target"], uses := ["ecg_data"] },
      { defs := ["any_target"], uses := ["TSContinuous", "target", "np"],
        calls := [("rockpool", "TSContinuous"), ("np", "any")] },
      { defs := ["fig", "axes"], uses := ["plt"], calls := [("plt", "subplots")] },
      { uses := ["axes"], calls := [("axes", "set_visible")] },
      { uses := ["plt"], calls := [("plt", "subplots_adjust")] },
      { defs := ["i_anom", "ax", "lbl"], uses := ["axes", "labels"],
        calls := [("axes", "flatten")] },
      { uses := ["output", "any_target", "target", "ax", "i_anom", "lbl"],
        calls := [("output", "clip"), ("output", "plot"), ("any_target", "plot"),
                  ("target", "clip"), ("target", "plot"), ("ax", "set_title")] } ],
    -- cell-31: hardware imports and settings
    [ { defs := ["rectangular_neuron_arrangement", "DynapseControlExtd"] },
      { defs := ["RecDynapSE"] },
      { defs := ["bias_path"] },
      { defs := ["silence_hot_neurons_dur"] } ],
    -- cell-33: neuron arrangement (references undefined size_in, size_inhib)
    [ { defs := ["rectangular_arrangement"], uses := ["size_in", "size_rec", "size_inhib"] },
      { defs := ["neuron_ids"] },
      { defs := ["rectangle_params"], uses := ["rectangular_arrangement"] },
      { defs := ["neuron_ids"],
        uses := ["neuron_ids", "rectangular_neuron_arrangement", "rectangle_params"],
        calls := [("rockpool", "rectangular_neuron_arrangement")] },
      { defs := ["virtual_neuron_ids"] } ],
    -- cell-34: hardware controller
    [ { defs := ["controller"], uses := ["DynapseControlExtd", "reservoir"],
        calls := [("rockpool", "DynapseControlExtd")] },
      { uses := ["controller", "bias_path"], calls := [("controller", "load_biases")] },
      { defs := ["hot_neurons"],
        uses := ["controller", "neuron_ids", "silence_hot_neurons_dur"],
        calls := [("controller", "silence_hot_neurons")] } ],
    -- cell-35: hardware reservoir layer
    [ { defs := ["hw_layer"],
        uses := ["RecDynapSE", "weights_res_in", "weights_rec", "neuron_ids",
                 "virtual_neuron_ids", "reservoir", "controller"],
        calls := [("rockpool", "RecDynapSE")] } ],
    -- cell-36: hardware readout (references the undefined name size_full)
    [ { defs := ["readout_hw"],
        uses := ["FFExpSyn", "np", "size_full", "NUM_ANOM_CLASSES", "DT_ECG"],
        calls := [("rockpool", "FFExpSyn"), ("np", "zeros")] } ],
    -- cell-37: hardware network
    [ { uses := ["sw_net"], calls := [("sw_net", "reset_all")] },
      { defs := ["hw_net"],
        uses := ["Network", "spike_enc", "hw_layer", "readout_hw", "DT_ECG"],
        calls := [("rockpool", "Network")] } ],
    -- cell-39: fully commented-out hardware training cell
    [],
    -- cell-40: load pretrained hardware readout parameters
    [ { attr := some ("readout_hw", "weights"), uses := ["readout_hw", "np"],
        calls := [("np", "load")], rhsIsLoad := true },
      { attr := some ("readout_hw", "bias"), uses := ["readout_hw", "np"],
        calls := [("np", "load")], rhsIsLoad := true } ],
    -- cell-42: hardware inference
    [ { defs := ["num_beats"] },
      { defs := ["ecg_data"], uses := ["data_loader", "num_beats"],
        calls := [("data_loader", "get_single_batch")] },
      { defs := ["net_data"], uses := ["hw_net", "ecg_data"], calls := [("hw_net", "evolve")] },
      { defs := ["output"], uses := ["net_data"] } ],
    -- cell-43: plot hardware inference output
    [ { defs := ["target"], uses := ["ecg_data"] },
      { defs := ["any_target"], uses := ["TSContinuous", "target", "np"],
        calls := [("rockpool", "TSContinuous"), ("np", "any")] },
      { defs := ["fig", "axes"], uses := ["plt"], calls := [("plt", "subplots")] },
      { uses := ["plt"], calls := [("plt", "subplots_adjust")] },
      { defs := ["i_anom", "ax", "lbl"], uses := ["axes", "labels"],
        calls := [("axes", "flatten")] },
      { uses := ["output", "any_target", "target", "ax", "i_anom", "lbl"],
        calls := [("output", "clip"), ("output", "plot"), ("any_target", "plot"),
                  ("target", "clip"), ("target", "plot"), ("ax", "set_title")] } ] ]

/-- All statements of the hardware-demo notebook, in order. -/
def hwStmts : List Stmt := hwCells.flatten

/-- All statements of the demo notebook, in order. -/
def demoStmts : List Stmt := demoCells.flatten

/-- All statements of both notebooks. -/
def allStmts : List Stmt := hwStmts ++ demoStmts

/-! ### Top-to-bottom execution of a notebook

A statement executes successfully iff every global name it reads is already
bound; it then binds its `defs` and performs its `calls`.  A statement
reading an unbound name raises `NameError` before performing its calls or
binding anything (Python evaluates the right-hand side first), and aborts
the rest of its cell; execution then continues with the next cell, as a
user running a notebook top to bottom would do.  Library and I/O calls
themselves are assumed to succeed. -/

/-- Run the statements of one cell: returns the environment of bound names,
the accumulated list of performed calls, and whether the whole cell
succeeded. -/
def runStmts : List String → List (String × String) → List Stmt →
    List String × List (String × String) × Bool
  | env, ran, [] => (env, ran, true)
  | env, ran, s :: rest =>
    if s.uses.all (fun n => env.contains n) then
      runStmts (env ++ s.defs) (ran ++ s.calls) rest
    else
      (env, ran, false)

/-- Run a list of cells: returns the final environment, the accumulated
performed calls, and the per-cell success flags. -/
def runCells : List String → List (String × String) → List (List Stmt) →
    List String × List (String × String) × List Bool
  | env, ran, [] => (env, ran, [])
  | env, ran, c :: cs =>
    let r := runStmts env ran c
    let rest := runCells r.1 r.2.1 cs
    (rest.1, rest.2.1, r.2.2 :: rest.2.2)

/-- Result of running the demo notebook top to bottom. -/
def demoRun : List String × List (String × String) × List Bool := runCells [] [] demoCells

/-- All names bound by any statement of the demo notebook. -/
def demoAllDefs : List String := (demoStmts.map (fun s => s.defs)).flatten

/-- C4: running `ECG Demo Notebook.ipynb` top to bottom raises `NameError`
before any inference runs.  The readout cells reference `size_full` and the
neuron-arrangement cell references `size_in` and `size_inhib`, but no cell
of the notebook binds any of these names; consequently the readout cell
(`cell-18`), the network cell (`cell-20`), the arrangement cell
(`cell-33`), the hardware readout cell (`cell-36`) and every later cell
using `readout`, `sw_net`, `readout_hw` or `hw_net` fail, those four names
are never bound, and no `evolve` call is ever performed.  The per-cell
success flags listed below correspond, in order, to cells 2, 4, 7, 9, 11,
13, 14, 15, 16, 18, 20, 23, 24, 25, 26, 28, 29, 31, 33, 34, 35, 36, 37,
39, 40, 42 and 43 of the notebook. -/
theorem demo_notebook_fails_before_inference :
    demoAllDefs.contains "size_full" = false
    ∧ demoAllDefs.contains "size_in" = false
    ∧ demoAllDefs.contains "size_inhib" = false
    ∧ (demoStmts.any fun s => s.defs.contains "readout" && s.uses.contains "size_full") = true
    ∧ (demoStmts.any fun s => s.defs.contains "readout_hw" && s.uses.contains "size_full") = true
    ∧ (demoStmts.any fun s =>
        s.defs.contains "rectangular_arrangement" && s.uses.contains "size_in"
          && s.uses.contains "size_inhib") = true
    ∧ demoRun.2.2 = [true, true, true, true, true, true, true, true, true, false, false,
        true, true, true, false, false, false, true, false, false, false, false, false,
        true, false, false, false]
    ∧ demoRun.1.contains "readout" = false
    ∧ demoRun.1.contains "sw_net" = false
    ∧ demoRun.1.contains "readout_hw" = false
    ∧ demoRun.1.contains "hw_net" = false
    ∧ (demoRun.2.1.all fun c => !(c.2 == "evolve")) = true := by
  refine ⟨?_, ?_, ?_, ?_, ?_, ?_, ?_, ?_, ?_, ?_, ?_, ?_⟩ <;> decide

/-! ### C3: classifying the notebooks' statements

The spec asserts the repository's own code is limited to four categories of
statements: configuration constants, file I/O glue, weight-scaling
arithmetic on loaded arrays, and matplotlib plotting calls.  The structural
category predicates below are decided from a statement's shape. -/

/-- Pair membership in a whitelist. -/
def pairMem (l : List (String × String)) (c : String × String) : Bool :=
  l.any (fun d => d.1 == c.1 && d.2 == c.2)

/-- Calls that pure configuration/setup statements may perform. -/
def configCalls : List (String × String) :=
  [("warnings", "filterwarnings"), ("importlib.util", "find_spec")]

/-- Configuration constants and import/binding glue: no attribute or
subscript assignment and no calls beyond interpreter setup. -/
def isConfigStmt (s : Stmt) : Bool :=
  s.calls.all (fun c => pairMem configCalls c) && s.attr == none && s.subscript == none

/-- File I/O glue: every call is an `np.load`/`np.save`. -/
def isFileIOStmt (s : Stmt) : Bool :=
  !s.calls.isEmpty && s.calls.all (fun c => pairMem [("np", "load"), ("np", "save")] c)

/-- The weight arrays manipulated by the scaling arithmetic. -/
def weightArrayNames : List String :=
  ["weights_res_in", "weights_rec", "weights_res_in_scaled", "weights_rec_scaled",
   "weights_expand"]

/-- Calls that the weight-scaling arithmetic may perform. -/
def scalingCallOk (c : String × String) : Bool :=
  c.2 == "copy" || pairMem [("np", "hstack"), ("np", "zeros")] c

/-- Weight-scaling arithmetic on loaded arrays: assigns (or updates in
place) only weight arrays, using at most array copies and array
assembly. -/
def isWeightScalingStmt (s : Stmt) : Bool :=
  s.calls.all scalingCallOk && s.attr == none
    && ((match s.subscript with
         | some n => weightArrayNames.contains n
         | none => false)
        || (!s.defs.isEmpty && s.defs.all (fun n => weightArrayNames.contains n)))

/-- Methods that belong to matplotlib plotting (including figure set-up and
the time-series `plot`/`clip` plot helpers used inside plotting loops). -/
def plotMethods : List String :=
  ["plot", "imshow", "clip", "flatten", "subplots", "subplots_adjust", "set_title",
   "set_xlabel", "set_ylabel", "set_visible", "title", "xlabel", "ylabel", "plot_examples"]

/-- Matplotlib plotting statements: every call is a `plt.`/axis/plot call. -/
def isPlottingStmt (s : Stmt) : Bool :=
  !s.calls.isEmpty && s.calls.all (fun c => c.1 == "plt" || plotMethods.contains c.2)

/-- The four categories the spec allows. -/
def inFourCategories (s : Stmt) : Bool :=
  isConfigStmt s || isFileIOStmt s || isWeightScalingStmt s || isPlottingStmt s

/-- Invocations of the external rockpool library, the data loader, the
hardware control stack, or builtin helpers applied to their results. -/
def libraryCalls : List (String × String) :=
  [("scripts", "ECGDataLoader"), ("data_loader", "get_single_batch"),
   ("rockpool", "FFUpDown"), ("rockpool", "RecIAFSpkInNest"), ("rockpool", "FFExpSyn"),
   ("rockpool", "Network"), ("rockpool", "RecDynapSE"), ("rockpool", "DynapseControlExtd"),
   ("rockpool", "TSContinuous"), ("rockpool", "rectangular_neuron_arrangement"),
   ("sw_net", "evolve"), ("sw_net", "reset_all"), ("hw_net", "evolve"),
   ("hw_net", "reset_all"), ("controller", "load_biases"),
   ("controller", "silence_hot_neurons"), ("np", "any"), ("np", "zeros"),
   ("builtins", "abs"), ("builtins", "print"),
   ("ecg_data.target", "copy"), ("ecg_data_hw.target", "copy")]

/-- A statement that invokes the external library / hardware stack. -/
def isLibraryInvocation (s : Stmt) : Bool :=
  s.calls.any (fun c => pairMem libraryCalls c)

/-- C3 counterexample: the claim that every notebook statement is a
configuration constant, file I/O glue, weight-scaling arithmetic or a
matplotlib plotting call is false — the hardware-demo notebook's statement
`hot_neurons = controller.silence_hot_neurons(neuron_ids, silence_hot_neurons_dur)`
scans the chip for five seconds and disables neurons on it, a hardware side
effect in none of the four categories. -/
theorem notebook_code_beyond_four_categories :
    silenceHotNeuronsStmt ∈ hwStmts
    ∧ inFourCategories silenceHotNeuronsStmt = false
    ∧ (allStmts.all inFourCategories) = false := by
  refine ⟨?_, ?_, ?_⟩ <;> decide

/-- C3 (amended): every statement of the two notebooks is a configuration
constant/import, file I/O glue, weight-scaling arithmetic, a matplotlib
plotting call, or a parameterized invocation of the external library /
data-loader / hardware-control stack. -/
theorem notebook_code_four_categories_plus_library :
    (allStmts.all fun s => inFourCategories s || isLibraryInvocation s) = true := by
  decide

/-! ### C5 and C6: no layer but the readout is mutated, and no training -/

/-- Does the statement assign attribute `a` of object `o`? -/
def assignsAttr (s : Stmt) (o a : String) : Bool :=
  match s.attr with
  | some p => p.1 == o && p.2 == a
  | none => false

/-- An attribute assignment is allowed iff it sets `weights` or `bias` of
`readout` or `readout_hw`. -/
def attrAssignOnlyReadoutParams (s : Stmt) : Bool :=
  match s.attr with
  | none => true
  | some p => (p.1 == "readout" || p.1 == "readout_hw") && (p.2 == "weights" || p.2 == "bias")

/-- The statements strictly after the software reservoir is constructed. -/
def stmtsAfterReservoir (l : List Stmt) : List Stmt :=
  l.drop (l.findIdx (fun s => s.defs.contains "reservoir") + 1)

/-- C5: the reservoir stays fixed — in both notebooks, every attribute
assignment targets `weights` or `bias` of `readout` or `readout_hw` (such
assignments do occur for both readouts), and after the reservoir layer is
constructed no statement performs an in-place array update except the
plotting-time `net_data_hw["readout"] = abs(...)` on the output dictionary,
which is not a layer.  In particular no statement ever reassigns a weight
or parameter of `reservoir`, `reservoir_hw`/`hw_layer` or `spike_enc`. -/
theorem only_readout_parameters_mutated :
    (allStmts.all attrAssignOnlyReadoutParams) = true
    ∧ ((stmtsAfterReservoir hwStmts).all fun s =>
        s.subscript == none || s.subscript == some "net_data_hw") = true
    ∧ ((stmtsAfterReservoir demoStmts).all fun s => s.subscript == none) = true
    ∧ (hwStmts.any fun s => assignsAttr s "readout" "weights") = true
    ∧ (hwStmts.any fun s => assignsAttr s "readout" "bias") = true
    ∧ (hwStmts.any fun s => assignsAttr s "readout_hw" "weights") = true
    ∧ (hwStmts.any fun s => assignsAttr s "readout_hw" "bias") = true
    ∧ (demoStmts.any fun s => assignsAttr s "readout" "weights") = true
    ∧ (demoStmts.any fun s => assignsAttr s "readout_hw" "bias") = true := by
  refine ⟨?_, ?_, ?_, ?_, ?_, ?_, ?_, ?_, ?_⟩ <;> decide

/-- Readout-parameter assignments must take their value from an `np.load`
of a stored file (possibly sliced), performing no other call. -/
def readoutParamsFromLoadOnly (s : Stmt) : Bool :=
  match s.attr with
  | none => true
  | some p =>
    if p.2 == "weights" || p.2 == "bias" then
      s.rhsIsLoad && s.calls.all (fun c => c.1 == "np" && c.2 == "load")
    else true

/-- C6: no executable statement of either notebook ever calls `train_rr`
(the ridge-regression training calls exist only inside comments, which are
not executable statements and hence not part of the statement lists), and
every assignment of readout `weights`/`bias` takes its value exclusively
from an `np.load` of a precomputed file. -/
theorem no_training_in_executed_path :
    (allStmts.all fun s => s.calls.all (fun c => !(c.2 == "train_rr"))) = true
    ∧ (allStmts.all readoutParamsFromLoadOnly) = true := by
  refine ⟨?_, ?_⟩ <;> decide

/-! ### C7: orchestration order -/

/-- Index of the first statement binding name `n`. -/
def idxDef (l : List Stmt) (n : String) : ℕ :=
  l.findIdx (fun s => s.defs.contains n)

/-- Index of the first statement assigning `o.a`. -/
def idxAttr (l : List Stmt) (o a : String) : ℕ :=
  l.findIdx (fun s => assignsAttr s o a)

/-- Index of the first statement calling `o.m`. -/
def idxCall (l : List Stmt) (o m : String) : ℕ :=
  l.findIdx (fun s => s.calls.any (fun c => c.1 == o && c.2 == m))

/-- Does any statement of `l` call `o.m`? -/
def hasCall (l : List Stmt) (o m : String) : Bool :=
  l.any (fun s => s.calls.any (fun c => c.1 == o && c.2 == m))

/-- C7: in each notebook the orchestration follows the stated order: the
data loader is constructed, then the spike encoder, reservoir and readout
layers are instantiated, then the pretrained readout weights and bias are
loaded, and only afterwards does the network inference (`evolve`) run, with
the output plotted after it.  In particular, in each notebook every
`evolve` call on a network comes after the weights and bias of that
network's readout have been assigned from the stored files: no `evolve`
call at all precedes the software readout's bias assignment, and the
hardware network's `evolve` follows the hardware readout's bias
assignment. -/
theorem orchestration_order_as_stated :
    idxDef hwStmts "data_loader" < idxDef hwStmts "spike_enc"
    ∧ idxDef hwStmts "spike_enc" < idxDef hwStmts "reservoir"
    ∧ idxDef hwStmts "reservoir" < idxDef hwStmts "readout"
    ∧ idxDef hwStmts "readout" < idxAttr hwStmts "readout" "weights"
    ∧ idxAttr hwStmts "readout" "weights" < idxAttr hwStmts "readout" "bias"
    ∧ idxAttr hwStmts "readout" "bias" < idxCall hwStmts "sw_net" "evolve"
    ∧ idxCall hwStmts "sw_net" "evolve" < idxCall hwStmts "output" "clip"
    ∧ idxAttr hwStmts "readout_hw" "weights" < idxAttr hwStmts "readout_hw" "bias"
    ∧ idxAttr hwStmts "readout_hw" "bias" < idxCall hwStmts "hw_net" "evolve"
    ∧ idxCall hwStmts "hw_net" "evolve" < idxCall hwStmts "output_hw" "clip"
    ∧ hasCall hwStmts "sw_net" "evolve" = true
    ∧ hasCall hwStmts "hw_net" "evolve" = true
    ∧ ((hwStmts.take (idxAttr hwStmts "readout" "bias")).all fun s =>
        s.calls.all (fun c => !(c.2 == "evolve"))) = true
    ∧ ((hwStmts.take (idxAttr hwStmts "readout_hw" "bias")).all fun s =>
        s.calls.all (fun c => !(c.1 == "hw_net" && c.2 == "evolve"))) = true
    ∧ idxDef demoStmts "data_loader" < idxDef demoStmts "spike_enc"
    ∧ idxDef demoStmts "spike_enc" < idxDef demoStmts "reservoir"
    ∧ idxDef demoStmts "reservoir" < idxDef demoStmts "readout"
    ∧ idxDef demoStmts "readout" < idxAttr demoStmts "readout" "weights"
    ∧ idxAttr demoStmts "readout" "weights" < idxAttr demoStmts "readout" "bias"
    ∧ idxAttr demoStmts "readout" "bias" < idxCall demoStmts "sw_net" "evolve"
    ∧ idxCall demoStmts "sw_net" "evolve" < idxCall demoStmts "output" "clip"
    ∧ idxAttr demoStmts "readout_hw" "weights" < idxAttr demoStmts "readout_hw" "bias"
    ∧ idxAttr demoStmts "readout_hw" "bias" < idxCall demoStmts "hw_net" "evolve"
    ∧ hasCall demoStmts "sw_net" "evolve" = true
    ∧ hasCall demoStmts "hw_net" "evolve" = true
    ∧ ((demoStmts.take (idxAttr demoStmts "readout" "bias")).all fun s =>
        s.calls.all (fun c => !(c.2 == "evolve"))) = true
    ∧ ((demoStmts.take (idxAttr demoStmts "readout_hw" "bias")).all fun s =>
        s.calls.all (fun c => !(c.1 == "hw_net" && c.2 == "evolve"))) = true := by
  refine ⟨?_, ?_, ?_, ?_, ?_, ?_, ?_, ?_, ?_, ?_, ?_, ?_, ?_, ?_, ?_, ?_, ?_, ?_, ?_, ?_,
    ?_, ?_, ?_, ?_, ?_, ?_, ?_⟩ <;> decide

end ECGDemo
